import Mathlib

set_option maxHeartbeats 1000000

attribute [local semireducible] Rat.add Rat.sub Rat.mul Rat.inv Rat.ofScientific

/-!
Shallow embedding of the thermostat controller (src/thermostat.py).

Temperatures and timestamps are Python floats; the claims only involve
exact small values, so they are modelled as rationals.  Setpoints,
calibration, differential and the construction parameters are Python
ints, modelled as integers.  Each fallible method returns a pair
`Option Err × Thermostat`: the second component is the state at the
moment the method returns or raises (every raise in the source happens
before any field is written, which the embedding mirrors literally).
Python truthiness tests (`if self.heat_setpoint and ...`,
`if not self.current_temp`) are modelled by `truthyInt` / `truthyQ`:
`None` and zero are falsy.
-/

structure TemperatureReading where
  value : ℚ
  timestamp : ℚ
  deriving DecidableEq, Repr

inductive Mode where
  | single
  | dual
  | heat
  | cool
  deriving DecidableEq, Repr

inductive TState where
  | on
  | off
  deriving DecidableEq, Repr

/-- Error kinds, one per distinct raise site in the source:
`range` for a single value outside its bound (ValueError),
`consistency` for a heat/cool setpoint pair violation (ValueError),
`offline` for `set_temp` while off (RuntimeError),
`config` for bad construction parameters (ValueError). -/
inductive Err where
  | range
  | consistency
  | offline
  | config
  deriving DecidableEq, Repr

structure Thermostat where
  setpoint : Option ℤ
  cool_setpoint : Option ℤ
  heat_setpoint : Option ℤ
  differential : ℤ
  calibration : ℤ
  temps : List TemperatureReading
  queue_len : ℤ
  window_len : ℤ
  state : TState
  mode : Mode
  heating : Bool
  cooling : Bool
  deriving DecidableEq, Repr

def SETPOINT_MAX : ℤ := 100

def SETPOINT_MIN : ℤ := 0

def CALIBRATION_MAX : ℤ := 5

def CALIBRATION_MIN : ℤ := -5

def DIFFERENTIAL_MAX : ℤ := 5

def DIFFERENTIAL_MIN : ℤ := 0

/-- Python truthiness of an optional int: `None` and `0` are falsy. -/
def truthyInt : Option ℤ → Bool
  | none => false
  | some x => x != 0

/-- Python truthiness of an optional float: `None` and `0.0` are falsy. -/
def truthyQ : Option ℚ → Bool
  | none => false
  | some x => x != 0

/-- Property `current_temp`: `self._temps[-1].value` if nonempty else `None`. -/
def current_temp (t : Thermostat) : Option ℚ :=
  (t.temps.getLast?).map TemperatureReading.value

/-- Property `online`: `self._state == self.STATE_ON`. -/
def online (t : Thermostat) : Bool :=
  t.state = TState.on

/-- Method `set_state_online`: sets the state flag only. -/
def set_state_online (t : Thermostat) : Thermostat :=
  { t with state := TState.on }

/-- Method `set_state_offline`: sets the state flag and clears both relays. -/
def set_state_offline (t : Thermostat) : Thermostat :=
  { t with state := TState.off, heating := false, cooling := false }

/-- Method `set_mode_single`: sets the mode and clears both relays. -/
def set_mode_single (t : Thermostat) : Thermostat :=
  { t with mode := Mode.single, heating := false, cooling := false }

/-- Method `set_mode_dual`: sets the mode and clears both relays. -/
def set_mode_dual (t : Thermostat) : Thermostat :=
  { t with mode := Mode.dual, heating := false, cooling := false }

/-- Method `set_mode_heat`: sets the mode and clears both relays. -/
def set_mode_heat (t : Thermostat) : Thermostat :=
  { t with mode := Mode.heat, heating := false, cooling := false }

/-- Method `set_mode_cool`: sets the mode and clears both relays. -/
def set_mode_cool (t : Thermostat) : Thermostat :=
  { t with mode := Mode.cool, heating := false, cooling := false }

/-- Method `_validate_setpoint`: range check `[SETPOINT_MIN, SETPOINT_MAX]`,
returning the value unchanged when in range. -/
def validate_setpoint (value : ℤ) : Except Err ℤ :=
  if value < SETPOINT_MIN then Except.error Err.range
  else if value > SETPOINT_MAX then Except.error Err.range
  else Except.ok value

/-- Method `set_setpoint`: validate, then write the single setpoint. -/
def set_setpoint (t : Thermostat) (value : ℤ) : Option Err × Thermostat :=
  match validate_setpoint value with
  | Except.error e => (some e, t)
  | Except.ok v => (none, { t with setpoint := some v })

/-- Method `set_cool_setpoint`: validate, then the cross check
`if self.heat_setpoint and (cool < heat + differential)` (Python
truthiness: a heat setpoint of `0` or `None` skips the check). -/
def set_cool_setpoint (t : Thermostat) (value : ℤ) : Option Err × Thermostat :=
  match validate_setpoint value with
  | Except.error e => (some e, t)
  | Except.ok c =>
    if truthyInt t.heat_setpoint
        && decide (c < t.heat_setpoint.getD 0 + t.differential) then
      (some Err.consistency, t)
    else
      (none, { t with cool_setpoint := some c })

/-- Method `set_heat_setpoint`: validate, then the cross check
`if self.cool_setpoint and (heat > cool - differential)` (Python
truthiness: a cool setpoint of `0` or `None` skips the check). -/
def set_heat_setpoint (t : Thermostat) (value : ℤ) : Option Err × Thermostat :=
  match validate_setpoint value with
  | Except.error e => (some e, t)
  | Except.ok h =>
    if truthyInt t.cool_setpoint
        && decide (h > t.cool_setpoint.getD 0 - t.differential) then
      (some Err.consistency, t)
    else
      (none, { t with heat_setpoint := some h })

/-- Method `set_calibration`: range check, then write. -/
def set_calibration (t : Thermostat) (value : ℤ) : Option Err × Thermostat :=
  if value < CALIBRATION_MIN ∨ value > CALIBRATION_MAX then (some Err.range, t)
  else (none, { t with calibration := value })

/-- Method `set_differential`: range check, then write. -/
def set_differential (t : Thermostat) (value : ℤ) : Option Err × Thermostat :=
  if value < DIFFERENTIAL_MIN ∨ value > DIFFERENTIAL_MAX then (some Err.range, t)
  else (none, { t with differential := value })

/-- Method `_should_heat`: the guard `if not self.current_temp or mode == COOL`
uses float truthiness, so a `0.0` reading counts as no reading. -/
def should_heat (t : Thermostat) : Bool :=
  if truthyQ (current_temp t) = false ∨ t.mode = Mode.cool then false
  else if t.mode = Mode.single then
    t.setpoint.isSome
      && decide ((current_temp t).getD 0 < ((t.setpoint.getD 0 - t.differential : ℤ) : ℚ))
  else if t.mode = Mode.dual ∨ t.mode = Mode.heat then
    t.heat_setpoint.isSome
      && decide ((current_temp t).getD 0 < ((t.heat_setpoint.getD 0 - t.differential : ℤ) : ℚ))
  else false

/-- Method `_should_cool`: symmetric to `should_heat`. -/
def should_cool (t : Thermostat) : Bool :=
  if truthyQ (current_temp t) = false ∨ t.mode = Mode.heat then false
  else if t.mode = Mode.single then
    t.setpoint.isSome
      && decide ((current_temp t).getD 0 > ((t.setpoint.getD 0 + t.differential : ℤ) : ℚ))
  else if t.mode = Mode.dual ∨ t.mode = Mode.cool then
    t.cool_setpoint.isSome
      && decide ((current_temp t).getD 0 > ((t.cool_setpoint.getD 0 + t.differential : ℤ) : ℚ))
  else false

/-- Method `_update_relays`: each flag toggles only on its own edge. -/
def update_relays (t : Thermostat) : Thermostat :=
  let t1 := if should_heat t && !t.heating then { t with heating := true } else t
  let t2 := if !should_heat t1 && t1.heating then { t1 with heating := false } else t1
  let t3 := if should_cool t2 && !t2.cooling then { t2 with cooling := true } else t2
  let t4 := if !should_cool t3 && t3.cooling then { t3 with cooling := false } else t3
  t4

/-- The list update inside `set_temp`: append the calibrated reading,
then `del self._temps[0]` if the length exceeds `queue_len`. -/
def push_reading (t : Thermostat) (value now : ℚ) : List TemperatureReading :=
  if ((t.temps ++ [TemperatureReading.mk (value + (t.calibration : ℚ)) now]).length : ℤ) > t.queue_len
  then (t.temps ++ [TemperatureReading.mk (value + (t.calibration : ℚ)) now]).drop 1
  else t.temps ++ [TemperatureReading.mk (value + (t.calibration : ℚ)) now]

/-- Method `set_temp`: offline check (raise before any mutation), calibrate,
push the reading, then `_update_relays`.  `now` models
`mktime(localtime())` at the call. -/
def set_temp (t : Thermostat) (value now : ℚ) : Option Err × Thermostat :=
  if online t = false then (some Err.offline, t)
  else (none, update_relays { t with temps := push_reading t value now })

/-- The state produced by `__init__` for valid parameters: fields
initialised, then `set_mode_single()` and `set_state_online()`. -/
def fresh (queue_len window_len : ℤ) : Thermostat :=
  set_state_online (set_mode_single
    { setpoint := none
      cool_setpoint := none
      heat_setpoint := none
      differential := 1
      calibration := 0
      temps := []
      queue_len := queue_len
      window_len := window_len
      state := TState.off
      mode := Mode.single
      heating := false
      cooling := false })

/-- Method `__init__`: validates `queue_len` and `window_len`, then builds `fresh`. -/
def init (queue_len window_len : ℤ) : Except Err Thermostat :=
  if queue_len ≤ 0 then Except.error Err.config
  else if window_len ≤ 0 then Except.error Err.config
  else Except.ok (fresh queue_len window_len)

/-- The result of `temp_history`: `full=True` returns `self._temps`
itself (the live internal list object), `full=False` builds a fresh
filtered list. -/
inductive HistoryView where
  | live
  | snapshot (xs : List TemperatureReading)
  deriving DecidableEq, Repr

/-- The window filter of `temp_history(full=False)`. -/
def windowed (t : Thermostat) (now : ℚ) : List TemperatureReading :=
  t.temps.filter fun r => decide (r.timestamp ≥ now - (t.window_len : ℚ))

/-- Method `temp_history`: `full=True` is `return self._temps` — an alias of the
internal list — modelled as the `live` view; `full=False` is a list
comprehension — a fresh list — modelled as a `snapshot`. -/
def temp_history (t : Thermostat) (full : Bool) (now : ℚ) : HistoryView :=
  if full then HistoryView.live else HistoryView.snapshot (windowed t now)

/-- What a caller holding a returned history sees when the controller is
in state `t`: a live view shows the internal list as it is now, a
snapshot shows the captured list. -/
def readView (v : HistoryView) (t : Thermostat) : List TemperatureReading :=
  match v with
  | HistoryView.live => t.temps
  | HistoryView.snapshot xs => xs

/-- Sum of consecutive first differences, as in the generator expression
inside `avg_temp_change`. -/
def diffsSum : List TemperatureReading → ℚ
  | [] => 0
  | [_] => 0
  | a :: b :: rest => (b.value - a.value) + diffsSum (b :: rest)

/-- Property `avg_temp_change`: two short-circuit guards, then the mean
of consecutive first differences over the in-window readings. -/
def avg_temp_change (t : Thermostat) (now : ℚ) : ℚ :=
  if t.temps.length < 2 then 0
  else
    let recent := windowed t now
    if recent.length < 2 then 0
    else diffsSum recent / ((recent.length - 1 : ℕ) : ℚ)

/-- One public operation of the controller, for claims that quantify
over operation sequences. -/
inductive Op where
  | opSetpoint (v : ℤ)
  | opCoolSetpoint (v : ℤ)
  | opHeatSetpoint (v : ℤ)
  | opCalibration (v : ℤ)
  | opDifferential (v : ℤ)
  | opModeSingle
  | opModeDual
  | opModeHeat
  | opModeCool
  | opOnline
  | opOffline
  | opSetTemp (v : ℚ) (now : ℚ)
  deriving DecidableEq, Repr

/-- Apply one public operation; a raising call leaves the state exactly
as it was at the raise (every raise precedes all writes). -/
def stepOp (t : Thermostat) : Op → Thermostat
  | Op.opSetpoint v => (set_setpoint t v).2
  | Op.opCoolSetpoint v => (set_cool_setpoint t v).2
  | Op.opHeatSetpoint v => (set_heat_setpoint t v).2
  | Op.opCalibration v => (set_calibration t v).2
  | Op.opDifferential v => (set_differential t v).2
  | Op.opModeSingle => set_mode_single t
  | Op.opModeDual => set_mode_dual t
  | Op.opModeHeat => set_mode_heat t
  | Op.opModeCool => set_mode_cool t
  | Op.opOnline => set_state_online t
  | Op.opOffline => set_state_offline t
  | Op.opSetTemp v now => (set_temp t v now).2

/-- Run a sequence of public operations. -/
def runOps (t : Thermostat) (ops : List Op) : Thermostat :=
  ops.foldl stepOp t

/-- Run a sequence of `set_temp` calls, each given as (raw value, time). -/
def runReads (t : Thermostat) (vs : List (ℚ × ℚ)) : Thermostat :=
  vs.foldl (fun s p => (set_temp s p.1 p.2).2) t

/-- Modelled from the spec (for the refinement claim about
`avg_temp_change`): the list of consecutive first differences of the
in-window readings. -/
def spec_diffs (recent : List TemperatureReading) : List ℚ :=
  (recent.zip recent.tail).map fun p => p.2.value - p.1.value

/-- Modelled from the spec (for the refinement claim about
`avg_temp_change`): `0.0` when fewer than two in-window readings,
otherwise the mean of consecutive first differences. -/
def spec_avg_change (recent : List TemperatureReading) : ℚ :=
  if recent.length < 2 then 0
  else (spec_diffs recent).sum / ((recent.length - 1 : ℕ) : ℚ)

/-- Agreement on every field a configuration setter must not touch
other than the configuration fields themselves. -/
def frame_rest (a b : Thermostat) : Prop :=
  a.temps = b.temps ∧ a.queue_len = b.queue_len ∧ a.window_len = b.window_len
    ∧ a.state = b.state ∧ a.mode = b.mode ∧ a.heating = b.heating ∧ a.cooling = b.cooling

/-!
Helper lemmas.
-/

theorem should_heat_flags (sp csp hsp : Option ℤ) (d cal : ℤ)
    (temps : List TemperatureReading) (q w : ℤ) (st : TState) (m : Mode) (h c : Bool) :
    should_heat (Thermostat.mk sp csp hsp d cal temps q w st m h c)
      = should_heat (Thermostat.mk sp csp hsp d cal temps q w st m false false) := rfl

theorem should_cool_flags (sp csp hsp : Option ℤ) (d cal : ℤ)
    (temps : List TemperatureReading) (q w : ℤ) (st : TState) (m : Mode) (h c : Bool) :
    should_cool (Thermostat.mk sp csp hsp d cal temps q w st m h c)
      = should_cool (Thermostat.mk sp csp hsp d cal temps q w st m false false) := rfl

/-- Method `_update_relays` leaves each flag equal to its predicate: the two
edge-triggered ifs per flag amount to recomputation, because the
predicates do not read the flags. -/
theorem update_relays_eq (t : Thermostat) :
    update_relays t = { t with heating := should_heat t, cooling := should_cool t } := by
  cases t with
  | mk sp csp hsp d cal temps q w st m h c =>
    unfold update_relays
    cases h1 : should_heat (Thermostat.mk sp csp hsp d cal temps q w st m false false) <;>
    cases h3 : should_cool (Thermostat.mk sp csp hsp d cal temps q w st m false false) <;>
    cases h <;> cases c <;>
    simp [should_heat_flags, should_cool_flags, h1, h3]

theorem set_setpoint_cases (t : Thermostat) (v : ℤ) :
    set_setpoint t v = (some Err.range, t)
      ∨ set_setpoint t v = (none, { t with setpoint := some v }) := by
  unfold set_setpoint validate_setpoint
  split_ifs <;> simp

theorem set_cool_setpoint_cases (t : Thermostat) (v : ℤ) :
    set_cool_setpoint t v = (some Err.range, t)
      ∨ set_cool_setpoint t v = (some Err.consistency, t)
      ∨ set_cool_setpoint t v = (none, { t with cool_setpoint := some v }) := by
  unfold set_cool_setpoint validate_setpoint
  split_ifs <;> dsimp only <;> (first | (split_ifs <;> simp) | simp)

theorem set_heat_setpoint_cases (t : Thermostat) (v : ℤ) :
    set_heat_setpoint t v = (some Err.range, t)
      ∨ set_heat_setpoint t v = (some Err.consistency, t)
      ∨ set_heat_setpoint t v = (none, { t with heat_setpoint := some v }) := by
  unfold set_heat_setpoint validate_setpoint
  split_ifs <;> dsimp only <;> (first | (split_ifs <;> simp) | simp)

theorem set_calibration_cases (t : Thermostat) (v : ℤ) :
    set_calibration t v = (some Err.range, t)
      ∨ set_calibration t v = (none, { t with calibration := v }) := by
  unfold set_calibration
  split_ifs <;> simp

theorem set_differential_cases (t : Thermostat) (v : ℤ) :
    set_differential t v = (some Err.range, t)
      ∨ set_differential t v = (none, { t with differential := v }) := by
  unfold set_differential
  split_ifs <;> simp

theorem set_temp_online_snd (t : Thermostat) (v now : ℚ) (ho : online t = true) :
    (set_temp t v now).2
      = { t with temps := push_reading t v now,
                 heating := should_heat { t with temps := push_reading t v now },
                 cooling := should_cool { t with temps := push_reading t v now } } := by
  simp [set_temp, ho, update_relays_eq]

theorem push_reading_getLast (t : Thermostat) (v now : ℚ) (hq : 0 < t.queue_len) :
    (push_reading t v now).getLast? = some ⟨v + (t.calibration : ℚ), now⟩ := by
  unfold push_reading
  split_ifs with h
  · rcases ht : t.temps with _ | ⟨a, l⟩
    · rw [ht] at h
      simp at h
      omega
    · simp [List.getLast?_concat]
  · exact List.getLast?_concat _

theorem push_reading_length (t : Thermostat) (v now : ℚ)
    (h : (t.temps.length : ℤ) ≤ t.queue_len) :
    ((push_reading t v now).length : ℤ) ≤ t.queue_len := by
  unfold push_reading
  split_ifs with hgt <;>
    simp only [List.length_append, List.length_drop, List.length_cons, List.length_nil]
      at hgt ⊢ <;>
    omega


theorem runReads_cons (t : Thermostat) (p : ℚ × ℚ) (vs : List (ℚ × ℚ)) :
    runReads t (p :: vs) = runReads (set_temp t p.1 p.2).2 vs := rfl

theorem runReads_append (t : Thermostat) (xs ys : List (ℚ × ℚ)) :
    runReads t (xs ++ ys) = runReads (runReads t xs) ys := by
  simp [runReads, List.foldl_append]

theorem runReads_fill (vs : List (ℚ × ℚ)) :
    ∀ t : Thermostat, online t = true →
      ((t.temps.length : ℤ) + vs.length ≤ t.queue_len) →
      (runReads t vs).temps
          = t.temps ++ vs.map (fun p => TemperatureReading.mk (p.1 + (t.calibration : ℚ)) p.2)
        ∧ (runReads t vs).calibration = t.calibration
        ∧ online (runReads t vs) = true
        ∧ (runReads t vs).queue_len = t.queue_len := by
  induction vs with
  | nil =>
    intro t ho _
    simp [runReads, ho]
  | cons p vs ih =>
    intro t ho hlen
    have hpush : push_reading t p.1 p.2
        = t.temps ++ [TemperatureReading.mk (p.1 + (t.calibration : ℚ)) p.2] := by
      unfold push_reading
      rw [if_neg]
      simp only [List.length_append, List.length_cons, List.length_nil, List.length_map] at hlen ⊢
      omega
    have hstep := set_temp_online_snd t p.1 p.2 ho
    have ho' : online (set_temp t p.1 p.2).2 = true := by rw [hstep]; exact ho
    have hc' : (set_temp t p.1 p.2).2.calibration = t.calibration := by rw [hstep]
    have hq' : (set_temp t p.1 p.2).2.queue_len = t.queue_len := by rw [hstep]
    have ht' : (set_temp t p.1 p.2).2.temps
        = t.temps ++ [TemperatureReading.mk (p.1 + (t.calibration : ℚ)) p.2] := by
      rw [hstep]; exact hpush
    have hlen' : ((set_temp t p.1 p.2).2.temps.length : ℤ) + vs.length
        ≤ (set_temp t p.1 p.2).2.queue_len := by
      rw [ht', hq']
      simp only [List.length_append, List.length_cons, List.length_nil] at hlen ⊢
      push_cast at hlen ⊢
      omega
    obtain ⟨ihtemps, ihcal, ihon, ihq⟩ := ih (set_temp t p.1 p.2).2 ho' hlen'
    refine ⟨?_, ?_, ?_, ?_⟩
    · rw [runReads_cons, ihtemps, ht', hc']
      simp [List.append_assoc]
    · rw [runReads_cons, ihcal, hc']
    · rw [runReads_cons]; exact ihon
    · rw [runReads_cons, ihq, hq']

theorem set_temp_evict (t : Thermostat) (v now : ℚ) (ho : online t = true)
    (hfull : (t.temps.length : ℤ) = t.queue_len) (hq : 0 < t.queue_len) :
    (set_temp t v now).2.temps
      = t.temps.drop 1 ++ [TemperatureReading.mk (v + (t.calibration : ℚ)) now] := by
  have hne : t.temps ≠ [] := by
    intro hnil
    rw [hnil] at hfull
    simp at hfull
    omega
  rcases ht : t.temps with _ | ⟨a, l⟩
  · exact absurd ht hne
  · have hstep := set_temp_online_snd t v now ho
    rw [hstep]
    show push_reading t v now = _
    unfold push_reading
    rw [if_pos]
    · rw [ht]
      simp
    · rw [ht] at hfull ⊢
      simp only [List.length_append, List.length_cons, List.length_nil] at hfull ⊢
      push_cast at hfull ⊢
      omega

theorem stepOp_queue_len (t : Thermostat) (op : Op) :
    (stepOp t op).queue_len = t.queue_len := by
  cases op with
  | opSetpoint v =>
    simp only [stepOp]
    rcases set_setpoint_cases t v with h | h <;> rw [h]
  | opCoolSetpoint v =>
    simp only [stepOp]
    rcases set_cool_setpoint_cases t v with h | h | h <;> rw [h]
  | opHeatSetpoint v =>
    simp only [stepOp]
    rcases set_heat_setpoint_cases t v with h | h | h <;> rw [h]
  | opCalibration v =>
    simp only [stepOp]
    rcases set_calibration_cases t v with h | h <;> rw [h]
  | opDifferential v =>
    simp only [stepOp]
    rcases set_differential_cases t v with h | h <;> rw [h]
  | opModeSingle => rfl
  | opModeDual => rfl
  | opModeHeat => rfl
  | opModeCool => rfl
  | opOnline => rfl
  | opOffline => rfl
  | opSetTemp v now =>
    by_cases ho : online t = true
    · rw [show stepOp t (Op.opSetTemp v now) = (set_temp t v now).2 from rfl,
        set_temp_online_snd t v now ho]
    · rw [show stepOp t (Op.opSetTemp v now) = (set_temp t v now).2 from rfl]
      unfold set_temp
      rw [if_pos (by simpa using ho)]

theorem stepOp_length_le (t : Thermostat) (op : Op)
    (h : (t.temps.length : ℤ) ≤ t.queue_len) :
    ((stepOp t op).temps.length : ℤ) ≤ t.queue_len := by
  cases op with
  | opSetpoint v =>
    simp only [stepOp]
    rcases set_setpoint_cases t v with he | he <;> rw [he] <;> exact h
  | opCoolSetpoint v =>
    simp only [stepOp]
    rcases set_cool_setpoint_cases t v with he | he | he <;> rw [he] <;> exact h
  | opHeatSetpoint v =>
    simp only [stepOp]
    rcases set_heat_setpoint_cases t v with he | he | he <;> rw [he] <;> exact h
  | opCalibration v =>
    simp only [stepOp]
    rcases set_calibration_cases t v with he | he <;> rw [he] <;> exact h
  | opDifferential v =>
    simp only [stepOp]
    rcases set_differential_cases t v with he | he <;> rw [he] <;> exact h
  | opModeSingle => exact h
  | opModeDual => exact h
  | opModeHeat => exact h
  | opModeCool => exact h
  | opOnline => exact h
  | opOffline => exact h
  | opSetTemp v now =>
    by_cases ho : online t = true
    · rw [show stepOp t (Op.opSetTemp v now) = (set_temp t v now).2 from rfl,
        set_temp_online_snd t v now ho]
      exact push_reading_length t v now h
    · rw [show stepOp t (Op.opSetTemp v now) = (set_temp t v now).2 from rfl]
      unfold set_temp
      rw [if_pos (by simpa using ho)]
      exact h

theorem runOps_length_le (ops : List Op) :
    ∀ t : Thermostat, (t.temps.length : ℤ) ≤ t.queue_len →
      ((runOps t ops).temps.length : ℤ) ≤ t.queue_len
        ∧ (runOps t ops).queue_len = t.queue_len := by
  induction ops with
  | nil => intro t h; exact ⟨h, rfl⟩
  | cons op ops ih =>
    intro t h
    have h1 : ((stepOp t op).temps.length : ℤ) ≤ (stepOp t op).queue_len := by
      rw [stepOp_queue_len]
      exact stepOp_length_le t op h
    obtain ⟨ha, hb⟩ := ih (stepOp t op) h1
    refine ⟨?_, ?_⟩
    · rw [show runOps t (op :: ops) = runOps (stepOp t op) ops from rfl]
      rw [stepOp_queue_len t op] at ha
      exact ha
    · rw [show runOps t (op :: ops) = runOps (stepOp t op) ops from rfl, hb,
        stepOp_queue_len t op]

theorem spec_diffs_cons (a b : TemperatureReading) (l : List TemperatureReading) :
    spec_diffs (a :: b :: l) = (b.value - a.value) :: spec_diffs (b :: l) := by
  simp [spec_diffs]

theorem diffsSum_eq_spec (l : List TemperatureReading) :
    diffsSum l = (spec_diffs l).sum := by
  match l with
  | [] => simp [diffsSum, spec_diffs]
  | [a] => simp [diffsSum, spec_diffs]
  | a :: b :: rest =>
    rw [show diffsSum (a :: b :: rest) = (b.value - a.value) + diffsSum (b :: rest) from rfl,
      spec_diffs_cons, List.sum_cons, diffsSum_eq_spec (b :: rest)]

/-- Claim C5: with the controller offline, `set_temp` fails with the
offline error and returns the state exactly as it was: no reading is
recorded and no field changes. -/
theorem C5_offline_set_temp (t : Thermostat) (v now : ℚ) (h : online t = false) :
    set_temp t v now = (some Err.offline, t) := by
  unfold set_temp
  rw [if_pos h]

theorem C5_offline_witness :
    online (set_state_offline (fresh 10 3600)) = false
      ∧ set_temp (set_state_offline (fresh 10 3600)) 20 0
          = (some Err.offline, set_state_offline (fresh 10 3600)) :=
  ⟨by decide, C5_offline_set_temp (set_state_offline (fresh 10 3600)) 20 0 (by decide)⟩

/-- Claim C8: every mode setter writes its mode and clears both relay
flags unconditionally; `set_state_offline` clears both flags;
`set_state_online` leaves both flags untouched. -/
theorem C8_mode_state_setters (t : Thermostat) :
    ((set_mode_single t).mode = Mode.single ∧ (set_mode_single t).heating = false
      ∧ (set_mode_single t).cooling = false)
    ∧ ((set_mode_dual t).mode = Mode.dual ∧ (set_mode_dual t).heating = false
      ∧ (set_mode_dual t).cooling = false)
    ∧ ((set_mode_heat t).mode = Mode.heat ∧ (set_mode_heat t).heating = false
      ∧ (set_mode_heat t).cooling = false)
    ∧ ((set_mode_cool t).mode = Mode.cool ∧ (set_mode_cool t).heating = false
      ∧ (set_mode_cool t).cooling = false)
    ∧ ((set_state_offline t).state = TState.off ∧ (set_state_offline t).heating = false
      ∧ (set_state_offline t).cooling = false)
    ∧ ((set_state_online t).state = TState.on ∧ (set_state_online t).heating = t.heating
      ∧ (set_state_online t).cooling = t.cooling) :=
  ⟨⟨rfl, rfl, rfl⟩, ⟨rfl, rfl, rfl⟩, ⟨rfl, rfl, rfl⟩, ⟨rfl, rfl, rfl⟩,
    ⟨rfl, rfl, rfl⟩, rfl, rfl, rfl⟩

/-- Claim C10: each configuration setter touches at most its own
configuration field; the relay flags, history, mode, online state and
the other configuration fields are unchanged whether the call succeeds
or fails. -/
theorem C10_setters_frame (t : Thermostat) (v : ℤ) :
    (frame_rest (set_setpoint t v).2 t
      ∧ (set_setpoint t v).2.cool_setpoint = t.cool_setpoint
      ∧ (set_setpoint t v).2.heat_setpoint = t.heat_setpoint
      ∧ (set_setpoint t v).2.differential = t.differential
      ∧ (set_setpoint t v).2.calibration = t.calibration)
    ∧ (frame_rest (set_cool_setpoint t v).2 t
      ∧ (set_cool_setpoint t v).2.setpoint = t.setpoint
      ∧ (set_cool_setpoint t v).2.heat_setpoint = t.heat_setpoint
      ∧ (set_cool_setpoint t v).2.differential = t.differential
      ∧ (set_cool_setpoint t v).2.calibration = t.calibration)
    ∧ (frame_rest (set_heat_setpoint t v).2 t
      ∧ (set_heat_setpoint t v).2.setpoint = t.setpoint
      ∧ (set_heat_setpoint t v).2.cool_setpoint = t.cool_setpoint
      ∧ (set_heat_setpoint t v).2.differential = t.differential
      ∧ (set_heat_setpoint t v).2.calibration = t.calibration)
    ∧ (frame_rest (set_calibration t v).2 t
      ∧ (set_calibration t v).2.setpoint = t.setpoint
      ∧ (set_calibration t v).2.cool_setpoint = t.cool_setpoint
      ∧ (set_calibration t v).2.heat_setpoint = t.heat_setpoint
      ∧ (set_calibration t v).2.differential = t.differential)
    ∧ (frame_rest (set_differential t v).2 t
      ∧ (set_differential t v).2.setpoint = t.setpoint
      ∧ (set_differential t v).2.cool_setpoint = t.cool_setpoint
      ∧ (set_differential t v).2.heat_setpoint = t.heat_setpoint
      ∧ (set_differential t v).2.calibration = t.calibration) := by
  refine ⟨?_, ?_, ?_, ?_, ?_⟩
  · rcases set_setpoint_cases t v with h | h <;> rw [h] <;>
      exact ⟨⟨rfl, rfl, rfl, rfl, rfl, rfl, rfl⟩, rfl, rfl, rfl, rfl⟩
  · rcases set_cool_setpoint_cases t v with h | h | h <;> rw [h] <;>
      exact ⟨⟨rfl, rfl, rfl, rfl, rfl, rfl, rfl⟩, rfl, rfl, rfl, rfl⟩
  · rcases set_heat_setpoint_cases t v with h | h | h <;> rw [h] <;>
      exact ⟨⟨rfl, rfl, rfl, rfl, rfl, rfl, rfl⟩, rfl, rfl, rfl, rfl⟩
  · rcases set_calibration_cases t v with h | h <;> rw [h] <;>
      exact ⟨⟨rfl, rfl, rfl, rfl, rfl, rfl, rfl⟩, rfl, rfl, rfl, rfl⟩
  · rcases set_differential_cases t v with h | h <;> rw [h] <;>
      exact ⟨⟨rfl, rfl, rfl, rfl, rfl, rfl, rfl⟩, rfl, rfl, rfl, rfl⟩

/-- Claim C9 (amended part): `temp_history(full=False)` is a fresh
snapshot — reading it against any later state gives the list filtered
at capture time — while `temp_history(full=True)` is the live internal
list: reading it shows the current history of whatever state the
controller has reached. -/
theorem C9_views (t t' : Thermostat) (now : ℚ) :
    readView (temp_history t false now) t' = windowed t now
    ∧ readView (temp_history t true now) t' = t'.temps :=
  ⟨rfl, rfl⟩

/-- Claim C9 (counterexample): the sequence returned by
`temp_history(full=True)` after one reading changes once a second
reading is accepted — it is a live view, not an independent snapshot. -/
theorem C9_counterexample :
    readView (temp_history (runReads (fresh 10 3600) [(20, 0)]) true 0)
        (runReads (fresh 10 3600) [(20, 0), (25, 1)])
      ≠ readView (temp_history (runReads (fresh 10 3600) [(20, 0)]) true 0)
          (runReads (fresh 10 3600) [(20, 0)]) := by decide

/-- Claim C1 (code evaluated at the failing input): setting the cool
setpoint to 0 first lets a heat setpoint of 100 bypass the consistency
check (Python truthiness treats 0 as unset), and in dual mode a reading
of 50 then switches both relays on simultaneously. -/
theorem C1_both_relays_on_eval :
    (runOps (fresh 10 3600)
        [Op.opCoolSetpoint 0, Op.opHeatSetpoint 100, Op.opModeDual, Op.opSetTemp 50 0]).heating
      = true
    ∧ (runOps (fresh 10 3600)
        [Op.opCoolSetpoint 0, Op.opHeatSetpoint 100, Op.opModeDual, Op.opSetTemp 50 0]).cooling
      = true
    ∧ (runOps (fresh 10 3600)
        [Op.opCoolSetpoint 0, Op.opHeatSetpoint 100, Op.opModeDual, Op.opSetTemp 50 0]).cool_setpoint
      = some 0
    ∧ (runOps (fresh 10 3600)
        [Op.opCoolSetpoint 0, Op.opHeatSetpoint 100, Op.opModeDual, Op.opSetTemp 50 0]).heat_setpoint
      = some 100 := by decide

/-- Claim C2 (code evaluated at the failing input): in Single mode with
setpoint 5 and differential 1, an accepted reading of exactly 0.0 gives
no heating demand (the falsy test treats it as no reading), although
0 < 5 − 1. -/
theorem C2_zero_reading_eval :
    (runOps (fresh 10 3600) [Op.opSetpoint 5, Op.opSetTemp 0 0]).mode = Mode.single
    ∧ (runOps (fresh 10 3600) [Op.opSetpoint 5, Op.opSetTemp 0 0]).setpoint = some 5
    ∧ (runOps (fresh 10 3600) [Op.opSetpoint 5, Op.opSetTemp 0 0]).differential = 1
    ∧ current_temp (runOps (fresh 10 3600) [Op.opSetpoint 5, Op.opSetTemp 0 0]) = some 0
    ∧ ((0 : ℚ) < ((5 - 1 : ℤ) : ℚ))
    ∧ should_heat (runOps (fresh 10 3600) [Op.opSetpoint 5, Op.opSetTemp 0 0]) = false
    ∧ (runOps (fresh 10 3600) [Op.opSetpoint 5, Op.opSetTemp 0 0]).heating = false := by decide

/-- Claim C3 (code evaluated at the failing input): after
`set_heat_setpoint(0)` (accepted) with differential 1, the call
`set_cool_setpoint(0)` succeeds even though 0 < 0 + 1, because the
consistency check is skipped for the falsy heat setpoint 0. -/
theorem C3_zero_heat_setpoint_eval :
    (set_heat_setpoint (fresh 10 3600) 0).1 = none
    ∧ (set_heat_setpoint (fresh 10 3600) 0).2.heat_setpoint = some 0
    ∧ (set_heat_setpoint (fresh 10 3600) 0).2.differential = 1
    ∧ (set_cool_setpoint (set_heat_setpoint (fresh 10 3600) 0).2 0).1 = none
    ∧ (set_cool_setpoint (set_heat_setpoint (fresh 10 3600) 0).2 0).2.cool_setpoint = some 0
    ∧ ((0 : ℤ) < 0 + 1) := by decide

/-- Claim C7: `avg_temp_change` equals the spec formula — `0.0` with
fewer than two in-window readings, otherwise the mean of consecutive
first differences of the in-window readings — and the example readings
20, 22, 21, 23 (all in window) give exactly 1.0. -/
theorem C7_avg_temp_change_spec (t : Thermostat) (now : ℚ) :
    avg_temp_change t now = spec_avg_change (readView (temp_history t false now) t)
    ∧ avg_temp_change
        (runReads (fresh 10 3600) [(20, 10), (22, 20), (21, 30), (23, 40)]) 100 = 1 := by
  constructor
  · rw [show readView (temp_history t false now) t = windowed t now from rfl]
    unfold avg_temp_change spec_avg_change
    by_cases h2 : t.temps.length < 2
    · have h3 : (windowed t now).length < 2 := by
        have hle := List.length_filter_le
          (fun r => decide (r.timestamp ≥ now - (t.window_len : ℚ))) t.temps
        unfold windowed
        omega
      rw [if_pos h2, if_pos h3]
    · rw [if_neg h2]
      dsimp only
      by_cases h3 : (windowed t now).length < 2
      · rw [if_pos h3, if_pos h3]
      · rw [if_neg h3, if_neg h3, diffsSum_eq_spec]
  · decide

/-- Claim C4 (counterexample): Single mode, setpoint 10, differential 1;
after a reading of 5 the heating flag is on, and the next accepted
reading 9.5 — inside the dead-band on the heating side, 9 ≤ 9.5 ≤ 10 —
turns the heating flag off, contradicting the claimed latch. -/
theorem C4_counterexample :
    (runOps (fresh 10 3600) [Op.opSetpoint 10, Op.opSetTemp 5 0]).heating = true
    ∧ (runOps (fresh 10 3600) [Op.opSetpoint 10, Op.opSetTemp 5 0]).mode = Mode.single
    ∧ (runOps (fresh 10 3600) [Op.opSetpoint 10, Op.opSetTemp 5 0]).setpoint = some 10
    ∧ (runOps (fresh 10 3600) [Op.opSetpoint 10, Op.opSetTemp 5 0]).differential = 1
    ∧ (runOps (fresh 10 3600) [Op.opSetpoint 10, Op.opSetTemp 5 0]).calibration = 0
    ∧ online (runOps (fresh 10 3600) [Op.opSetpoint 10, Op.opSetTemp 5 0]) = true
    ∧ ((10 : ℚ) - 1 ≤ 19/2 ∧ (19/2 : ℚ) ≤ 10)
    ∧ (runOps (fresh 10 3600)
        [Op.opSetpoint 10, Op.opSetTemp 5 0, Op.opSetTemp (19/2) 1]).heating = false := by
  decide

/-- Claim C4 (amended): in Single mode with setpoint `s`, differential
`d > 0` and the heating flag on, an accepted reading whose calibrated
value lies in the dead-band `[s − d, s]` switches the heating flag off:
after every accepted reading the flag simply equals the demand
predicate, so it releases as soon as the reading re-enters the band. -/
theorem C4_deadband_clears (t : Thermostat) (v now : ℚ) (s d : ℤ)
    (hm : t.mode = Mode.single) (hs : t.setpoint = some s) (hd : t.differential = d)
    (hd0 : 0 < d) (ho : online t = true) (hq : 0 < t.queue_len) (hheat : t.heating = true)
    (hlo : ((s : ℚ) - (d : ℚ)) ≤ v + (t.calibration : ℚ))
    (hhi : v + (t.calibration : ℚ) ≤ (s : ℚ)) :
    (set_temp t v now).2.heating = false := by
  rw [set_temp_online_snd t v now ho]
  show should_heat { t with temps := push_reading t v now } = false
  have hcur : current_temp { t with temps := push_reading t v now }
      = some (v + (t.calibration : ℚ)) := by
    show ((push_reading t v now).getLast?).map TemperatureReading.value = _
    rw [push_reading_getLast t v now hq]
    rfl
  unfold should_heat
  rw [hcur]
  by_cases hc : v + (t.calibration : ℚ) = 0
  · rw [if_pos]
    left
    rw [hc]
    simp [truthyQ]
  · have h1 : truthyQ (some (v + (t.calibration : ℚ))) = true := by
      simp [truthyQ]
      exact hc
    rw [if_neg, if_pos]
    · show (t.setpoint.isSome && decide
        ((some (v + (t.calibration : ℚ))).getD 0
          < ((t.setpoint.getD 0 - t.differential : ℤ) : ℚ))) = false
      rw [hs, hd]
      simp only [Option.isSome_some, Bool.true_and, Option.getD_some]
      rw [decide_eq_false]
      push_cast
      intro hcon
      linarith
    · show ({ t with temps := push_reading t v now } : Thermostat).mode = Mode.single
      show t.mode = Mode.single
      exact hm
    · rw [h1]
      show ¬(true = false ∨ ({ t with temps := push_reading t v now } : Thermostat).mode = Mode.cool)
      rintro (hfalse | hcool)
      · exact absurd hfalse (by simp)
      · rw [show ({ t with temps := push_reading t v now } : Thermostat).mode = t.mode from rfl,
          hm] at hcool
        exact Mode.noConfusion hcool

theorem C4_deadband_witness :
    (runOps (fresh 10 3600) [Op.opSetpoint 10, Op.opSetTemp 5 0]).mode = Mode.single
    ∧ (runOps (fresh 10 3600) [Op.opSetpoint 10, Op.opSetTemp 5 0]).setpoint = some 10
    ∧ (runOps (fresh 10 3600) [Op.opSetpoint 10, Op.opSetTemp 5 0]).differential = 1
    ∧ ((0 : ℤ) < 1)
    ∧ online (runOps (fresh 10 3600) [Op.opSetpoint 10, Op.opSetTemp 5 0]) = true
    ∧ ((0 : ℤ) < (runOps (fresh 10 3600) [Op.opSetpoint 10, Op.opSetTemp 5 0]).queue_len)
    ∧ (runOps (fresh 10 3600) [Op.opSetpoint 10, Op.opSetTemp 5 0]).heating = true
    ∧ (((10 : ℤ) : ℚ) - ((1 : ℤ) : ℚ) ≤ (19/2 : ℚ)
        + ((runOps (fresh 10 3600) [Op.opSetpoint 10, Op.opSetTemp 5 0]).calibration : ℚ))
    ∧ ((19/2 : ℚ)
        + ((runOps (fresh 10 3600) [Op.opSetpoint 10, Op.opSetTemp 5 0]).calibration : ℚ)
        ≤ ((10 : ℤ) : ℚ))
    ∧ (set_temp (runOps (fresh 10 3600) [Op.opSetpoint 10, Op.opSetTemp 5 0])
        (19/2) 1).2.heating = false :=
  ⟨by decide, by decide, by decide, by decide, by decide, by decide, by decide,
    by decide, by decide,
    C4_deadband_clears (runOps (fresh 10 3600) [Op.opSetpoint 10, Op.opSetTemp 5 0])
      (19/2) 1 10 1 (by decide) (by decide) (by decide) (by decide) (by decide)
      (by decide) (by decide) (by decide) (by decide)⟩

/-- Claim C6: from a freshly constructed controller with capacity
`queue_len`, the history length never exceeds `queue_len` under any
operation sequence; and after `queue_len + 1` accepted readings the
history is exactly the last `queue_len` readings in insertion order —
so the first inserted reading is gone from `temp_history(full=True)`
whenever it differs from the later ones. -/
theorem C6_bounded_fifo (q w : ℤ) (hq : 0 < q) (hw : 0 < w)
    (ops : List Op) (p0 : ℚ × ℚ) (rest : List (ℚ × ℚ)) (hrest : (rest.length : ℤ) = q) :
    ((runOps (fresh q w) ops).temps.length : ℤ) ≤ q
    ∧ (runReads (fresh q w) (p0 :: rest)).temps
        = rest.map (fun p => TemperatureReading.mk p.1 p.2)
    ∧ (TemperatureReading.mk p0.1 p0.2 ∉ rest.map (fun p => TemperatureReading.mk p.1 p.2) →
        TemperatureReading.mk p0.1 p0.2
          ∉ readView (temp_history (runReads (fresh q w) (p0 :: rest)) true 0)
              (runReads (fresh q w) (p0 :: rest))) := by
  have hfresh_temps : (fresh q w).temps = [] := rfl
  have hfresh_q : (fresh q w).queue_len = q := rfl
  have hfresh_cal : (fresh q w).calibration = 0 := rfl
  have hfresh_on : online (fresh q w) = true := rfl
  have part2 : (runReads (fresh q w) (p0 :: rest)).temps
      = rest.map (fun p => TemperatureReading.mk p.1 p.2) := by
    rcases List.eq_nil_or_concat rest with hnil | ⟨mid, plast, hsplit⟩
    · rw [hnil] at hrest
      simp at hrest
      omega
    · rw [hsplit, List.concat_eq_append] at hrest ⊢
      have hlenfill : ((fresh q w).temps.length : ℤ) + ((p0 :: mid).length : ℤ)
          ≤ (fresh q w).queue_len := by
        rw [hfresh_temps, hfresh_q]
        simp only [List.length_nil, List.length_cons, List.length_append] at hrest ⊢
        push_cast at hrest ⊢
        omega
      obtain ⟨ht, hcal, hon, hq'⟩ :=
        runReads_fill (p0 :: mid) (fresh q w) hfresh_on (by exact_mod_cast hlenfill)
      have hfull : ((runReads (fresh q w) (p0 :: mid)).temps.length : ℤ)
          = (runReads (fresh q w) (p0 :: mid)).queue_len := by
        rw [ht, hq', hfresh_temps, hfresh_q]
        simp only [List.length_append, List.length_cons, List.length_nil, List.length_map,
          List.nil_append] at hrest ⊢
        push_cast at hrest ⊢
        omega
      have hqpos : 0 < (runReads (fresh q w) (p0 :: mid)).queue_len := by
        rw [hq', hfresh_q]
        exact hq
      have hev := set_temp_evict (runReads (fresh q w) (p0 :: mid)) plast.1 plast.2
        hon hfull hqpos
      have hstepeq : runReads (fresh q w) ((p0 :: mid) ++ [plast])
          = (set_temp (runReads (fresh q w) (p0 :: mid)) plast.1 plast.2).2 := by
        rw [runReads_append]
        rfl
      rw [show p0 :: (mid ++ [plast]) = (p0 :: mid) ++ [plast] from rfl, hstepeq, hev, ht,
        hcal, hfresh_cal, hfresh_temps]
      simp [Int.cast_zero, add_zero]
  refine ⟨?_, part2, ?_⟩
  · have hinv : ((fresh q w).temps.length : ℤ) ≤ (fresh q w).queue_len := by
      rw [hfresh_temps, hfresh_q]
      simp
      omega
    obtain ⟨h1, _⟩ := runOps_length_le ops (fresh q w) hinv
    rw [hfresh_q] at h1
    exact h1
  · intro hni
    rw [show readView (temp_history (runReads (fresh q w) (p0 :: rest)) true 0)
          (runReads (fresh q w) (p0 :: rest))
        = (runReads (fresh q w) (p0 :: rest)).temps from rfl, part2]
    exact hni

theorem C6_bounded_fifo_witness :
    ((0 : ℤ) < 2) ∧ ((0 : ℤ) < 60)
    ∧ ((([((22 : ℚ), (1 : ℚ)), ((21 : ℚ), (2 : ℚ))] : List (ℚ × ℚ)).length : ℤ) = 2)
    ∧ (((runOps (fresh 2 60) [Op.opSetTemp 20 0, Op.opSetTemp 22 1, Op.opSetTemp 21 2]).temps.length : ℤ) ≤ 2
      ∧ (runReads (fresh 2 60) (((20 : ℚ), (0 : ℚ)) :: [((22 : ℚ), (1 : ℚ)), ((21 : ℚ), (2 : ℚ))])).temps
          = ([((22 : ℚ), (1 : ℚ)), ((21 : ℚ), (2 : ℚ))] : List (ℚ × ℚ)).map
              (fun p => TemperatureReading.mk p.1 p.2)
      ∧ (TemperatureReading.mk (20 : ℚ) (0 : ℚ)
            ∉ ([((22 : ℚ), (1 : ℚ)), ((21 : ℚ), (2 : ℚ))] : List (ℚ × ℚ)).map
                (fun p => TemperatureReading.mk p.1 p.2) →
          TemperatureReading.mk (20 : ℚ) (0 : ℚ)
            ∉ readView
                (temp_history
                  (runReads (fresh 2 60)
                    (((20 : ℚ), (0 : ℚ)) :: [((22 : ℚ), (1 : ℚ)), ((21 : ℚ), (2 : ℚ))])) true 0)
                (runReads (fresh 2 60)
                  (((20 : ℚ), (0 : ℚ)) :: [((22 : ℚ), (1 : ℚ)), ((21 : ℚ), (2 : ℚ))])))) :=
  ⟨by decide, by decide, by decide,
    C6_bounded_fifo 2 60 (by decide) (by decide)
      [Op.opSetTemp 20 0, Op.opSetTemp 22 1, Op.opSetTemp 21 2]
      ((20 : ℚ), (0 : ℚ)) [((22 : ℚ), (1 : ℚ)), ((21 : ℚ), (2 : ℚ))] (by decide)⟩
